import Mathlib

/-!
Verification of the aegis-audit scoring pipeline (agent2.py, the exploit
confirmer / Scorer, and agent3.py, the remediation Prioritizer) against its
natural-language specification.  Python dictionaries holding findings are
embedded as a structure of optional fields; Python floats are embedded as
rationals; Python strings as Lean strings with list-of-char helpers mirroring
`in`, `.lower()`, `.strip()`, `.startswith()` and `.split()`.
-/

namespace AegisAudit

/-- Python `s.lower()` (ASCII case folding, which is all the keyword tables use). -/
def pyLower (s : String) : String := ⟨s.data.map Char.toLower⟩

/-- Is `p` an infix (contiguous sublist) of the second list? -/
def listInfix (p : List Char) : List Char → Bool
  | [] => p.isEmpty
  | c :: rest => p.isPrefixOf (c :: rest) || listInfix p rest

/-- Python `needle in hay` (substring containment). -/
def substr (needle hay : String) : Bool := listInfix needle.data hay.data

/-- Python `s.startswith(p)`. -/
def pyStartsWith (p s : String) : Bool := p.data.isPrefixOf s.data

/-- Python `s.strip()` on a list of characters (whitespace from both ends). -/
def pyStripL (l : List Char) : List Char :=
  ((l.dropWhile Char.isWhitespace).reverse.dropWhile Char.isWhitespace).reverse

/-- Python `s.strip()`. -/
def pyStrip (s : String) : String := ⟨pyStripL s.data⟩

/-- Python `s.split(c)` for a single-character separator, on a list of characters. -/
def splitLines (l : List Char) : List (List Char) :=
  match l with
  | [] => [[]]
  | ch :: rest =>
    match splitLines rest with
    | [] => [[]]
    | line :: more => if ch = '\n' then [] :: line :: more else (ch :: line) :: more

/-- A normalized vulnerability finding: the union of the dictionary keys the
pipeline logic reads.  Upstream (Agent 1) findings carry `check` / `impact` /
`confidence` / `id`; symbolic-exec (Mythril) findings carry `title` /
`severity`; the Scorer additionally writes `confirmed` and
`final_exploitability_score`.  Absent dictionary keys are `none`. -/
structure Finding where
  check : Option String := none
  title : Option String := none
  impact : Option String := none
  severity : Option String := none
  confidence : Option String := none
  id : Option String := none
  confirmed : Option Bool := none
  final_exploitability_score : Option ℚ := none
deriving Repr, DecidableEq

/-- The dictionary returned by the `generate_*_test` helpers of agent2.
The static Solidity `test_code` template text is fixed prose (spec §1 places
snippet generation out of scope) and is not modelled. -/
structure ExploitResult where
  test_generated : Bool
  test_executed : Bool
  exploit_confirmed : Bool
  test_output : String
  confidence_score : ℚ
deriving Repr, DecidableEq

/-- agent2.generate_reentrancy_test. -/
def generate_reentrancy_test (_f : Finding) : ExploitResult :=
  { test_generated := true
    test_executed := false
    exploit_confirmed := false
    test_output := "Reentrancy test template generated"
    confidence_score := 0.7 }

/-- agent2.generate_unchecked_call_test. -/
def generate_unchecked_call_test (_f : Finding) : ExploitResult :=
  { test_generated := true
    test_executed := false
    exploit_confirmed := false
    test_output := "Unchecked call vulnerability detected - manual verification recommended"
    confidence_score := 0.6 }

/-- agent2.generate_timestamp_test. -/
def generate_timestamp_test (_f : Finding) : ExploitResult :=
  { test_generated := true
    test_executed := false
    exploit_confirmed := false
    test_output := "Timestamp dependency detected - block.timestamp manipulation possible"
    confidence_score := 0.5 }

/-- agent2.generate_integer_overflow_test. -/
def generate_integer_overflow_test (_f : Finding) : ExploitResult :=
  { test_generated := true
    test_executed := false
    exploit_confirmed := false
    test_output := "Integer overflow/underflow vulnerability detected"
    confidence_score := 0.8 }

/-- agent2.generate_generic_test. -/
def generate_generic_test (f : Finding) : ExploitResult :=
  { test_generated := true
    test_executed := false
    exploit_confirmed := false
    test_output := "Generic vulnerability test for: " ++ f.check.getD "unknown"
    confidence_score := 0.3 }

/-- The classifier input text of agent2.generate_exploit_test:
`finding.get('check', finding.get('title', '')).lower()`. -/
def scorerText (f : Finding) : String := pyLower (f.check.getD (f.title.getD ""))

/-- agent2.generate_exploit_test: dispatch on keyword containment in the
lowered `check`-else-`title` text, in source order. -/
def generate_exploit_test (f : Finding) : ExploitResult :=
  let vuln_type := scorerText f
  if substr "reentrancy" vuln_type then
    generate_reentrancy_test f
  else if substr "unchecked-call" vuln_type || substr "low-level-calls" vuln_type then
    generate_unchecked_call_test f
  else if substr "timestamp" vuln_type || substr "block-timestamp" vuln_type then
    generate_timestamp_test f
  else if substr "integer" vuln_type || substr "overflow" vuln_type || substr "underflow" vuln_type then
    generate_integer_overflow_test f
  else
    generate_generic_test f

/-- agent2.calculate_final_score: the effective severity text,
`finding.get('impact', finding.get('severity', 'Medium'))`. -/
def sevString (f : Finding) : String := f.impact.getD (f.severity.getD "Medium")

/-- agent2.calculate_final_score. -/
def calculate_final_score (f : Finding) (er : ExploitResult) : ℚ :=
  let base_score : ℚ := 0.5
  let severity := pyLower (sevString f)
  let base_score := base_score +
    (if severity = "high" ∨ severity = "critical" then 0.3
     else if severity = "medium" then 0.1 else 0)
  let confidence := er.confidence_score
  let base_score := (base_score + confidence) / 2
  min base_score 1

/-- The enhanced finding dictionary built in agent2.main for each input
finding (spread of the original finding plus the fields written by the
Scorer). -/
structure Enhanced where
  finding : Finding
  source : String
  exploit_test : ExploitResult
  final_exploitability_score : ℚ
  confirmed : Bool
deriving Repr, DecidableEq

/-- One iteration of the per-finding loop in agent2.main. -/
def enhanceFinding (source : String) (f : Finding) : Enhanced :=
  { finding := f
    source := source
    exploit_test := generate_exploit_test f
    final_exploitability_score := calculate_final_score f (generate_exploit_test f)
    confirmed := (generate_exploit_test f).exploit_confirmed }

/-- agent2.main step 4: build `all_findings` by appending the enhanced
Agent 1 findings, then the enhanced Mythril findings, to an initially empty
list. -/
def processFindings (agent1_findings mythril_findings : List Finding) : List Enhanced :=
  let all_findings : List Enhanced := []
  let all_findings := agent1_findings.foldl
    (fun acc f => acc ++ [enhanceFinding "agent1" f]) all_findings
  let all_findings := mythril_findings.foldl
    (fun acc f => acc ++ [enhanceFinding "mythril" f]) all_findings
  all_findings

/-- agent2.main step 5: `confirmed_exploits` count of the final report. -/
def confirmed_exploits_count (agent1_findings mythril_findings : List Finding) : Nat :=
  ((processFindings agent1_findings mythril_findings).filter (fun f => f.confirmed)).length

/-- A raw issue object from the symbolic-execution tool's JSON output
(`mythril_data["issues"]`); every field is producer-optional. -/
structure MythrilIssue where
  title : Option String := none
  description : Option String := none
  severity : Option String := none
  swc_id : Option String := none
  lineno : Option Nat := none
  filename : Option String := none
  function : Option String := none
  address : Option Nat := none
  debug : Option String := none
deriving Repr, DecidableEq

/-- agent2.run_mythril_analysis: normalization of one raw issue into a
finding dictionary.  The produced dictionary has `title` and `severity` keys
but no `check`, `impact`, `confidence` or `final_exploitability_score` key
(its score key is spelled `exploitability_score`). -/
def mythrilIssueToFinding (i : MythrilIssue) : Finding :=
  { check := none
    title := some (i.title.getD "Unknown Mythril Issue")
    impact := none
    severity := some (i.severity.getD "Medium")
    confidence := none
    id := none
    confirmed := some false
    final_exploitability_score := none }

/-- The category taxonomy (spec §3). -/
inductive Category where
  | reentrancy
  | uncheckedExternalCall
  | timestampDependency
  | integerOverflow
  | accessControl
  | compilerVersion
  | generic
deriving Repr, DecidableEq

/-- The category implicitly assigned by the dispatch chain of
agent2.generate_exploit_test, with the containment conditions transcribed in
source order (first match wins). -/
def scorerClassifyText (t : String) : Category :=
  let v := pyLower t
  if substr "reentrancy" v then .reentrancy
  else if substr "unchecked-call" v || substr "low-level-calls" v then .uncheckedExternalCall
  else if substr "timestamp" v || substr "block-timestamp" v then .timestampDependency
  else if substr "integer" v || substr "overflow" v || substr "underflow" v then .integerOverflow
  else .generic

/-- The category implicitly assigned by the dispatch chain of
agent3.generate_remediation, with the containment conditions transcribed in
source order (first match wins). -/
def prioritizerClassifyText (t : String) : Category :=
  let v := pyLower t
  if substr "reentrancy" v then .reentrancy
  else if substr "external-call" v || substr "unchecked" v then .uncheckedExternalCall
  else if substr "overflow" v || substr "underflow" v then .integerOverflow
  else if substr "timestamp" v || substr "time" v then .timestampDependency
  else if substr "access" v || substr "owner" v || substr "modifier" v then .accessControl
  else if substr "solc-version" v || substr "pragma" v then .compilerVersion
  else .generic

/-- The remediation dictionary returned by the `generate_*_fix` helpers of
agent3.  The `remediation_steps`, `secure_code_example` and
`prevention_measures` entries are fixed prose and Solidity snippet blocks,
constant per helper and never inspected by any logic (spec §1 places this
static text out of scope); only the data-bearing fields are modelled. -/
structure Fix where
  vulnerability_type : String
  severity : String
  description : String
deriving Repr, DecidableEq

/-- agent3.generate_reentrancy_fix. -/
def generate_reentrancy_fix (_f : Finding) : Fix :=
  { vulnerability_type := "reentrancy"
    severity := "Critical"
    description := "Reentrancy vulnerability allows attackers to drain contract funds" }

/-- agent3.generate_unchecked_call_fix. -/
def generate_unchecked_call_fix (_f : Finding) : Fix :=
  { vulnerability_type := "unchecked_external_call"
    severity := "High"
    description := "Unchecked external calls can lead to silent failures and unexpected behavior" }

/-- agent3.generate_integer_overflow_fix. -/
def generate_integer_overflow_fix (_f : Finding) : Fix :=
  { vulnerability_type := "integer_overflow"
    severity := "High"
    description := "Integer overflow/underflow can lead to unexpected behavior and fund loss" }

/-- agent3.generate_timestamp_dependency_fix. -/
def generate_timestamp_dependency_fix (_f : Finding) : Fix :=
  { vulnerability_type := "timestamp_dependency"
    severity := "Medium"
    description := "Reliance on block.timestamp can be manipulated by miners" }

/-- agent3.generate_access_control_fix. -/
def generate_access_control_fix (_f : Finding) : Fix :=
  { vulnerability_type := "access_control"
    severity := "Critical"
    description := "Improper access controls can allow unauthorized actions" }

/-- agent3.generate_solc_version_fix. -/
def generate_solc_version_fix (_f : Finding) : Fix :=
  { vulnerability_type := "solc_version"
    severity := "Low"
    description := "Using outdated or problematic Solidity versions can introduce known bugs" }

/-- agent3.generate_generic_fix: the severity mirrors
`finding.get("impact", "Medium")`. -/
def generate_generic_fix (f : Finding) : Fix :=
  { vulnerability_type := "generic"
    severity := f.impact.getD "Medium"
    description := "Security issue detected: " ++ f.check.getD "Unknown" }

/-- agent3.generate_remediation: dispatch on keyword containment in
`finding.get("check", "").lower()`, in source order. -/
def generate_remediation (f : Finding) : Fix :=
  let check_type := pyLower (f.check.getD "")
  if substr "reentrancy" check_type then
    generate_reentrancy_fix f
  else if substr "external-call" check_type || substr "unchecked" check_type then
    generate_unchecked_call_fix f
  else if substr "overflow" check_type || substr "underflow" check_type then
    generate_integer_overflow_fix f
  else if substr "timestamp" check_type || substr "time" check_type then
    generate_timestamp_dependency_fix f
  else if substr "access" check_type || substr "owner" check_type || substr "modifier" check_type then
    generate_access_control_fix f
  else if substr "solc-version" check_type || substr "pragma" check_type then
    generate_solc_version_fix f
  else
    generate_generic_fix f

/-- Python `int(q)` on a number: truncation toward zero. -/
def pyInt (q : ℚ) : ℤ := if 0 ≤ q then ⌊q⌋ else ⌈q⌉

/-- agent3.calculate_remediation_priority, as the source's sequence of
`priority +=` updates. -/
def calculate_remediation_priority (f : Finding) : ℤ :=
  let impact := pyLower (f.impact.getD "")
  let confidence := pyLower (f.confidence.getD "")
  let exploitability_score := f.final_exploitability_score.getD 0
  let confirmed := f.confirmed.getD false
  let priority : ℤ := 0
  let priority := priority +
    (if impact = "critical" then 100
     else if impact = "high" then 80
     else if impact = "medium" then 60
     else if impact = "low" then 40
     else 20)
  let priority := priority +
    (if confidence = "high" then 20
     else if confidence = "medium" then 10
     else 0)
  let priority := priority + pyInt (exploitability_score * 20)
  let priority := priority + (if confirmed then 50 else 0)
  priority

/-- One entry of the `remediations` list built in agent3.main: the fix
dictionary extended with `finding_id`, `priority` and the `original_finding`
sub-dictionary. -/
structure RemediationRecord where
  fix : Fix
  finding_id : String
  priority : ℤ
  orig_check : Option String
  orig_impact : Option String
  orig_confidence : Option String
  orig_confirmed : Bool
  orig_exploitability_score : ℚ
deriving Repr, DecidableEq

/-- One iteration of the remediation loop in agent3.main. -/
def buildRecord (f : Finding) : RemediationRecord :=
  { fix := generate_remediation f
    finding_id := f.id.getD "unknown"
    priority := calculate_remediation_priority f
    orig_check := f.check
    orig_impact := f.impact
    orig_confidence := f.confidence
    orig_confirmed := f.confirmed.getD false
    orig_exploitability_score := f.final_exploitability_score.getD 0 }

/-- agent3.main: build the `remediations` list by appending one record per
finding to an initially empty list. -/
def buildRecords (findings : List Finding) : List RemediationRecord :=
  findings.foldl (fun acc f => acc ++ [buildRecord f]) []

/-- agent3.main: `remediations.sort(key=lambda x: x["priority"], reverse=True)`
— a stable sort, descending on `priority`. -/
def sortedRemediations (findings : List Finding) : List RemediationRecord :=
  (buildRecords findings).mergeSort (fun a b => decide (b.priority ≤ a.priority))

/-- Python `s.replace(pat, rep)` on lists of characters, for a non-empty
pattern (all patterns used by the text parser are non-empty literals). -/
def replaceAllL (pat rep : List Char) : List Char → List Char
  | [] => []
  | c :: rest =>
    if h : pat ≠ [] ∧ pat.isPrefixOf (c :: rest) then
      rep ++ replaceAllL pat rep ((c :: rest).drop pat.length)
    else
      c :: replaceAllL pat rep rest
termination_by l => l.length
decreasing_by
  · have hp : 0 < pat.length := List.length_pos.mpr h.1
    simp only [List.length_drop, List.length_cons]
    omega
  · simp only [List.length_cons]
    omega

/-- The accumulator dictionary `current_issue` created by
agent2.parse_mythril_text_output at a section-delimiter line; the keys not
named in a later branch keep their creation-time constants. -/
structure TextIssue where
  tool : String := "mythril"
  title : String
  description : String := ""
  severity : String := "Medium"
  lineno : Nat := 1
  filename : String
  confirmed : Bool := false
  exploitability_score : ℚ := 0
  swc_id : Option String := none
deriving Repr, DecidableEq

/-- One iteration of the line loop of agent2.parse_mythril_text_output.
The state carries the `findings` accumulator and `current_issue`
(`none` embeds the initial empty dictionary, which every guard of the
source treats as falsy). -/
def parseStep (contract_path : String) (st : List TextIssue × Option TextIssue)
    (rawLine : List Char) : List TextIssue × Option TextIssue :=
  let line := pyStripL rawLine
  if "==== ".data.isPrefixOf line then
    (match st.2 with
     | some i => st.1 ++ [i]
     | none => st.1,
     some { title := ⟨pyStripL (replaceAllL "====".data [] line)⟩
            description := ""
            severity := "Medium"
            lineno := 1
            filename := contract_path
            confirmed := false
            exploitability_score := 0 })
  else
    match st.2 with
    | none => st
    | some i =>
      if "SWC ID:".data.isPrefixOf line then
        (st.1, some { i with swc_id := some ⟨pyStripL (replaceAllL "SWC ID:".data [] line)⟩ })
      else if "Severity:".data.isPrefixOf line then
        (st.1, some { i with severity := ⟨pyStripL (replaceAllL "Severity:".data [] line)⟩ })
      else if line ≠ [] ∧ ¬ "----".data.isPrefixOf line then
        (st.1, some { i with description := i.description ++ ⟨line⟩ ++ " " })
      else
        st

/-- agent2.parse_mythril_text_output: fold the line loop over
`output.split('\n')`, then flush the last accumulator if non-empty. -/
def parse_mythril_text_output (output : String) (contract_path : String) : List TextIssue :=
  let lines := splitLines output.data
  let st := lines.foldl (parseStep contract_path) ([], none)
  match st.2 with
  | some i => st.1 ++ [i]
  | none => st.1

/-- Spec §4.2 wording: the fixed base confidence carried by each category.
The claim lists reentrancy 0.7, unchecked-call 0.6, timestamp 0.5,
integer-overflow 0.8, generic 0.3; the two Prioritizer-only categories are
unreachable at the Scorer and are given the generic constant. -/
def claimBaseConfidence : Category → ℚ
  | .reentrancy => 0.7
  | .uncheckedExternalCall => 0.6
  | .timestampDependency => 0.5
  | .integerOverflow => 0.8
  | .accessControl => 0.3
  | .compilerVersion => 0.3
  | .generic => 0.3

/-- Claim C1 wording: the severity bonus — 0.3 when the self-reported
severity (impact for upstream findings, severity for symbolic-exec findings,
case-insensitively) is high or critical, 0.1 when medium, 0 otherwise. -/
def claimSevBonus (f : Finding) : ℚ :=
  let s := pyLower (sevString f)
  if s = "high" ∨ s = "critical" then 0.3
  else if s = "medium" then 0.1
  else 0

/-- Claim C1 wording: the final exploitability score,
`((0.5 + severity bonus) + category base confidence) / 2` clamped to a
maximum of 1.0. -/
def claimedScoreC1 (f : Finding) : ℚ :=
  min ((0.5 + claimSevBonus f + claimBaseConfidence (scorerClassifyText (f.check.getD (f.title.getD "")))) / 2) 1

/-- Claim C2 wording: the impact-tier base. -/
def claimImpactTier (s : String) : ℤ :=
  if s = "critical" then 100
  else if s = "high" then 80
  else if s = "medium" then 60
  else if s = "low" then 40
  else 20

/-- Claim C2 wording: the confidence-label bonus. -/
def claimConfidenceBonus (s : String) : ℤ :=
  if s = "high" then 20
  else if s = "medium" then 10
  else 0

/-- Claim C2 as frozen: tier base plus confidence bonus plus
`round(exploitability_score * 20)` plus the confirmed boost. -/
def claimedPriorityC2 (f : Finding) : ℤ :=
  claimImpactTier (pyLower (f.impact.getD ""))
    + claimConfidenceBonus (pyLower (f.confidence.getD ""))
    + round ((f.final_exploitability_score.getD 0) * 20)
    + (if f.confirmed.getD false then 50 else 0)

/-- Claim C2 as amended: the third contribution is
`int(exploitability_score * 20)`, i.e. truncation toward zero, not
rounding. -/
def amendedPriorityC2 (f : Finding) : ℤ :=
  claimImpactTier (pyLower (f.impact.getD ""))
    + claimConfidenceBonus (pyLower (f.confidence.getD ""))
    + pyInt ((f.final_exploitability_score.getD 0) * 20)
    + (if f.confirmed.getD false then 50 else 0)

/-- Claim C8 as amended: fixed severity label per category, except that the
generic category mirrors the finding's `impact` field (defaulting to
Medium); the `severity` field of symbolic-exec findings is not consulted. -/
def amendedSeverityC8 (f : Finding) : String :=
  match prioritizerClassifyText (f.check.getD "") with
  | .reentrancy => "Critical"
  | .uncheckedExternalCall => "High"
  | .integerOverflow => "High"
  | .timestampDependency => "Medium"
  | .accessControl => "Critical"
  | .compilerVersion => "Low"
  | .generic => f.impact.getD "Medium"

/-- Counterexample input for claim C2: a finding whose exploitability score
times 20 is not an integer. -/
def exC2 : Finding := { final_exploitability_score := some (99 / 100) }

/-- Counterexample input for claim C8: a symbolic-exec-shaped finding whose
self-reported severity lives in the `severity` field, with no `impact`. -/
def exC8 : Finding := { severity := some "High" }

/-- The confidence score attached by agent2.generate_exploit_test is exactly
the fixed base-confidence constant of the category its dispatch selects. -/
lemma confidence_score_eq (f : Finding) :
    (generate_exploit_test f).confidence_score =
      claimBaseConfidence (scorerClassifyText (f.check.getD (f.title.getD ""))) := by
  unfold generate_exploit_test scorerClassifyText scorerText
  dsimp only
  split_ifs <;> rfl

/-- agent2.generate_exploit_test dispatches exactly along the category
assigned by the Scorer classifier. -/
lemma generate_exploit_test_dispatch (f : Finding) :
    generate_exploit_test f =
      (match scorerClassifyText (f.check.getD (f.title.getD "")) with
       | .reentrancy => generate_reentrancy_test f
       | .uncheckedExternalCall => generate_unchecked_call_test f
       | .timestampDependency => generate_timestamp_test f
       | .integerOverflow => generate_integer_overflow_test f
       | _ => generate_generic_test f) := by
  unfold generate_exploit_test scorerClassifyText scorerText
  dsimp only
  split_ifs <;> rfl

/-- agent3.generate_remediation dispatches exactly along the category
assigned by the Prioritizer classifier. -/
lemma generate_remediation_dispatch (f : Finding) :
    generate_remediation f =
      (match prioritizerClassifyText (f.check.getD "") with
       | .reentrancy => generate_reentrancy_fix f
       | .uncheckedExternalCall => generate_unchecked_call_fix f
       | .integerOverflow => generate_integer_overflow_fix f
       | .timestampDependency => generate_timestamp_dependency_fix f
       | .accessControl => generate_access_control_fix f
       | .compilerVersion => generate_solc_version_fix f
       | .generic => generate_generic_fix f) := by
  unfold generate_remediation prioritizerClassifyText
  dsimp only
  split_ifs <;> rfl

/-- Claim C1: for every finding processed by the Scorer, the final
exploitability score equals `((0.5 + severity bonus) + category base
confidence) / 2` clamped to a maximum of 1.0, where the severity bonus is
0.3 for a (case-insensitive) high or critical self-reported severity, 0.1
for medium, and 0 otherwise. -/
theorem C1_final_score (f : Finding) :
    calculate_final_score f (generate_exploit_test f) = claimedScoreC1 f := by
  unfold calculate_final_score claimedScoreC1 claimSevBonus
  rw [confidence_score_eq]

/-- Claim C2, amended: the priority equals impact-tier base plus
confidence-label bonus plus `int(exploitability_score * 20)` (truncation
toward zero, not rounding) plus 50 when confirmed. -/
theorem C2_priority_formula (f : Finding) :
    calculate_remediation_priority f = amendedPriorityC2 f := by
  unfold calculate_remediation_priority amendedPriorityC2 claimImpactTier claimConfidenceBonus
  dsimp only
  simp only [zero_add]

/-- Claim C2 fails as frozen: at a finding whose exploitability score is
0.99, the code computes `int(19.8) = 19` (priority 39) while the claimed
`round(19.8) = 20` formula yields 40. -/
theorem C2_counterexample :
    calculate_remediation_priority exC2 ≠ claimedPriorityC2 exC2 := by
  have h1 : pyInt ((99 / 100 : ℚ) * 20) = 19 := by
    have e : (99 / 100 : ℚ) * 20 = 99 / 5 := by norm_num
    rw [e, pyInt, if_pos (by norm_num), Int.floor_eq_iff] <;> norm_num
  have h2 : round ((99 / 100 : ℚ) * 20) = 20 := by
    have e : (99 / 100 : ℚ) * 20 = 99 / 5 := by norm_num
    rw [e, round_eq, Int.floor_eq_iff] <;> norm_num
  have hl : calculate_remediation_priority exC2 = 0 + 20 + 0 + pyInt ((99 / 100 : ℚ) * 20) + 0 := rfl
  have hr : claimedPriorityC2 exC2 = 20 + 0 + round ((99 / 100 : ℚ) * 20) + 0 := rfl
  rw [hl, hr, h1, h2]
  norm_num

/-- Claim C4: the Scorer classifies each finding by case-insensitive
substring matching of its check-else-title text with first-match-wins
precedence (reentrancy; unchecked-call/low-level-calls; timestamp;
integer/overflow/underflow; generic), and the confidence used in the score
is exactly the fixed constant of the assigned category (0.7, 0.6, 0.5, 0.8,
0.3). -/
theorem C4_scorer_classification (f : Finding) :
    generate_exploit_test f =
      (match scorerClassifyText (f.check.getD (f.title.getD "")) with
       | .reentrancy => generate_reentrancy_test f
       | .uncheckedExternalCall => generate_unchecked_call_test f
       | .timestampDependency => generate_timestamp_test f
       | .integerOverflow => generate_integer_overflow_test f
       | _ => generate_generic_test f)
    ∧ (generate_exploit_test f).confidence_score =
      claimBaseConfidence (scorerClassifyText (f.check.getD (f.title.getD ""))) :=
  ⟨generate_exploit_test_dispatch f, confidence_score_eq f⟩

/-- Folding list-append of one image element at a time is `map`. -/
lemma foldl_append_eq_map {α β : Type} (g : α → β) (l : List α) (init : List β) :
    l.foldl (fun acc f => acc ++ [g f]) init = init ++ l.map g := by
  induction l generalizing init with
  | nil => simp
  | cons x xs ih => simp [ih]

/-- The merge loop of agent2.main is upstream-enhanced entries followed by
Mythril-enhanced entries. -/
lemma processFindings_eq (a m : List Finding) :
    processFindings a m = a.map (enhanceFinding "agent1") ++ m.map (enhanceFinding "mythril") := by
  unfold processFindings
  dsimp only
  rw [foldl_append_eq_map, foldl_append_eq_map]
  simp

/-- Every branch of agent2.generate_exploit_test reports
`exploit_confirmed = False`. -/
lemma exploit_confirmed_false (f : Finding) :
    (generate_exploit_test f).exploit_confirmed = false := by
  unfold generate_exploit_test
  dsimp only
  split_ifs <;> rfl

/-- Claim C7: the merged finding list is all upstream-derived entries first,
followed by all symbolic-exec-derived entries, each in input order with
nothing dropped or deduplicated, and its length is the sum of the input
lengths. -/
theorem C7_merge_order (up myth : List Finding) :
    processFindings up myth = up.map (enhanceFinding "agent1") ++ myth.map (enhanceFinding "mythril")
    ∧ (processFindings up myth).length = up.length + myth.length := by
  refine ⟨processFindings_eq up myth, ?_⟩
  rw [processFindings_eq]
  simp

/-- Claim C5: every finding in the confirmation report has
`confirmed = False` (no Scorer code path sets it true), so the report's
`confirmed_exploits` count is 0. -/
theorem C5_confirmed_false (a m : List Finding) :
    ((processFindings a m).all fun e => e.confirmed == false) = true
    ∧ confirmed_exploits_count a m = 0 := by
  have hconf : ∀ e ∈ processFindings a m, e.confirmed = false := by
    rw [processFindings_eq]
    intro e he
    rcases List.mem_append.mp he with h | h <;>
      · obtain ⟨f, _, rfl⟩ := List.mem_map.mp h
        exact exploit_confirmed_false f
  constructor
  · rw [List.all_eq_true]
    intro e he
    simp [hconf e he]
  · unfold confirmed_exploits_count
    rw [List.length_eq_zero, List.filter_eq_nil]
    intro e he
    simp [hconf e he]

/-- The record loop of agent3.main is a `map` of `buildRecord`. -/
lemma buildRecords_eq (fs : List Finding) : buildRecords fs = fs.map buildRecord := by
  unfold buildRecords
  rw [foldl_append_eq_map]
  simp

/-- Claim C6: the Prioritizer output is a permutation of the per-finding
records, sorted in descending priority order, and equal-priority records
keep the relative order of their originating findings. -/
theorem C6_sort_stable (fs : List Finding) :
    List.Perm (sortedRemediations fs) (fs.map buildRecord)
    ∧ List.Pairwise (fun a b : RemediationRecord => b.priority ≤ a.priority) (sortedRemediations fs)
    ∧ ∀ p : ℤ, (sortedRemediations fs).filter (fun r => r.priority == p)
        = (buildRecords fs).filter (fun r => r.priority == p) := by
  have htrans : ∀ a b c : RemediationRecord,
      decide (b.priority ≤ a.priority) = true → decide (c.priority ≤ b.priority) = true →
      decide (c.priority ≤ a.priority) = true := by
    intro a b c hab hbc
    simp only [decide_eq_true_eq] at *
    omega
  have htotal : ∀ a b : RemediationRecord,
      (decide (b.priority ≤ a.priority) || decide (a.priority ≤ b.priority)) = true := by
    intro a b
    simp only [Bool.or_eq_true, decide_eq_true_eq]
    omega
  have hperm : List.Perm (sortedRemediations fs) (buildRecords fs) := List.mergeSort_perm _ _
  refine ⟨?_, ?_, ?_⟩
  · have h := hperm
    rw [buildRecords_eq] at h
    exact h
  · have hs := List.sorted_mergeSort htrans htotal (buildRecords fs)
    exact hs.imp fun h => by simpa using h
  · intro p
    have hmem : ∀ r ∈ (buildRecords fs).filter (fun r => r.priority == p), r.priority = p := by
      intro r hr
      have := (List.mem_filter.mp hr).2
      simpa using this
    have hpw : ((buildRecords fs).filter (fun r => r.priority == p)).Pairwise
        (fun a b => decide (b.priority ≤ a.priority) = true) := by
      apply List.pairwise_of_forall_mem_list
      intro a ha b hb
      simp [hmem a ha, hmem b hb]
    have hsub : List.Sublist ((buildRecords fs).filter (fun r => r.priority == p)) (sortedRemediations fs) :=
      List.sublist_mergeSort htrans htotal hpw (List.filter_sublist _)
    have hsub2 := hsub.filter (fun r => r.priority == p)
    rw [List.filter_filter] at hsub2
    have hself : ((buildRecords fs).filter fun r => r.priority == p && r.priority == p)
        = (buildRecords fs).filter (fun r => r.priority == p) := by
      apply List.filter_congr
      intro r _
      simp
    rw [hself] at hsub2
    have hlen : ((sortedRemediations fs).filter (fun r => r.priority == p)).length
        = ((buildRecords fs).filter (fun r => r.priority == p)).length :=
      (hperm.filter _).length_eq
    exact (hsub2.eq_of_length hlen.symm).symm

/-- Claim C8, amended: each category maps to its fixed severity label,
except that the generic category mirrors the finding's `impact` field with
default Medium (the `severity` field is not consulted). -/
theorem C8_severity_labels (f : Finding) :
    (generate_remediation f).severity = amendedSeverityC8 f := by
  rw [generate_remediation_dispatch]
  unfold amendedSeverityC8
  cases prioritizerClassifyText (f.check.getD "") <;> rfl

/-- Claim C8 fails as frozen: a generic-classified symbolic-exec finding
whose self-reported severity (its `severity` field) is High receives the
label Medium, because generate_generic_fix reads only the `impact` field. -/
theorem C8_counterexample :
    prioritizerClassifyText (exC8.check.getD "") = Category.generic ∧
    sevString exC8 = "High" ∧
    (generate_remediation exC8).severity = "Medium" ∧
    (generate_remediation exC8).severity ≠ sevString exC8 :=
  ⟨by decide, rfl, by decide, by decide⟩

/-- Claim C10: the Prioritizer classifier reads only the `check` field —
any finding without one (in particular every normalized symbolic-exec
finding, whose category text sits in `title`) receives the generic
remediation bundle regardless of its title. -/
theorem C10_check_only :
    (∀ f : Finding, f.check = none → generate_remediation f = generate_generic_fix f)
    ∧ ∀ i : MythrilIssue, (mythrilIssueToFinding i).check = none := by
  constructor
  · intro f h
    unfold generate_remediation
    rw [h]
    rfl
  · intro i
    rfl

/-- Witness for claim C10: a finding whose title says reentrancy but which
has no `check` key still gets the generic fix bundle. -/
theorem C10_witness :
    generate_remediation { title := some "Reentrancy bug detected" } =
      generate_generic_fix { title := some "Reentrancy bug detected" } :=
  C10_check_only.1 _ rfl

/-- Claim C3, amended: each classifier is a deterministic function of the
text, and the two stages agree on any text containing `reentrancy`
(case-insensitively), both assigning the reentrancy category; beyond the
access-control/compiler-version extension the two keyword tables otherwise
diverge. -/
theorem C3_reentrancy_agree (t : String) (h : substr "reentrancy" (pyLower t) = true) :
    scorerClassifyText t = Category.reentrancy ∧
    prioritizerClassifyText t = Category.reentrancy := by
  unfold scorerClassifyText prioritizerClassifyText
  dsimp only
  rw [if_pos h, if_pos h]
  exact ⟨rfl, rfl⟩

/-- Witness for claim C3: both classifiers assign reentrancy to
`Reentrancy-eth`. -/
theorem C3_witness :
    substr "reentrancy" (pyLower "Reentrancy-eth") = true ∧
    scorerClassifyText "Reentrancy-eth" = Category.reentrancy ∧
    prioritizerClassifyText "Reentrancy-eth" = Category.reentrancy :=
  ⟨by decide, (C3_reentrancy_agree "Reentrancy-eth" (by decide)).1,
    (C3_reentrancy_agree "Reentrancy-eth" (by decide)).2⟩

/-- Claim C3 fails as frozen: the text `low-level-calls` is classified
unchecked-external-call by the Scorer but generic (not access-control or
compiler-version) by the Prioritizer. -/
theorem C3_counterexample :
    scorerClassifyText "low-level-calls" = Category.uncheckedExternalCall ∧
    prioritizerClassifyText "low-level-calls" = Category.generic ∧
    scorerClassifyText "low-level-calls" ≠ prioritizerClassifyText "low-level-calls" :=
  ⟨by decide, by decide, by decide⟩

/-- The parser loop never leaves its initial state while no stripped line
starts with the section delimiter. -/
lemma parse_fold_nil (contract_path : String) :
    ∀ lines : List (List Char),
      (∀ l ∈ lines, "==== ".data.isPrefixOf (pyStripL l) = false) →
      lines.foldl (parseStep contract_path) ([], none) = ([], none) := by
  intro lines
  induction lines with
  | nil => intro _; rfl
  | cons x xs ih =>
    intro hall
    rw [List.foldl_cons]
    have hx : "==== ".data.isPrefixOf (pyStripL x) = false := hall x (by simp)
    have hstep : parseStep contract_path ([], none) x = ([], none) := by
      unfold parseStep
      dsimp only
      rw [if_neg (by simp [hx])]
    rw [hstep]
    exact ih fun l hl => hall l (by simp [hl])

/-- Claim C9: the fallback text parser is total by construction (a
structurally recursive function), and on any input without a
section-delimiter line — the empty string included — it returns the empty
finding list. -/
theorem C9_parse_empty (output contract_path : String)
    (h : ∀ l ∈ splitLines output.data, "==== ".data.isPrefixOf (pyStripL l) = false) :
    parse_mythril_text_output output contract_path = [] := by
  unfold parse_mythril_text_output
  dsimp only
  rw [parse_fold_nil contract_path (splitLines output.data) h]

/-- Witness for claim C9: the empty output string parses to no findings. -/
theorem C9_witness :
    parse_mythril_text_output "" "contract.sol" = [] :=
  C9_parse_empty "" "contract.sol" (by decide)

end AegisAudit
